import Mathlib

/-!
Verification development for the length-of-stay prediction server
(`server.py`).  The web layer is embedded shallowly: Python strings are
Lean `String`s, Python floats that carry predictions are rationals with
explicit NaN/infinity markers, the external `proje` module is a record of
opaque functions, and the module-level mutable globals (`_model`,
`_model_err`, `_OPTIONS_READY` and the three option lists) form an
explicit `ServerState` threaded through every handler.

Python's string primitives are re-implemented over `List Char` so that
every definition evaluates inside the kernel:
* `.strip()`            → `pyStrip` (drop leading/trailing whitespace);
* `.upper()`            → `pyUpper` (character-wise upper-casing);
* `.replace(";", ",")`  → `pyReplaceSemi`;
* `.split(",")`         → `pySplit ','` (keeps empty fragments);
* `.split("||")`        → `pySplitBars`;
* string comparison     → `pyLt`/`pyLe`, lexicographic by code point,
  exactly Python's `<`/`<=` on strings;
* `sorted(set(xs))`     → `pySortedSet` (deduplicate, then sort);
* `sorted(set(xs), key=lambda x: (len(x), x))` → `pySortedSetByLenLex`.
-/

namespace Server

/-- Lexicographic comparison of char lists by code point; this is how
Python compares strings. -/
def charListLt : List Char → List Char → Bool
  | [], [] => false
  | [], _ :: _ => true
  | _ :: _, [] => false
  | a :: as, b :: bs => if a < b then true else if b < a then false else charListLt as bs

/-- Python's `a < b` on strings. -/
def pyLt (a b : String) : Prop := charListLt a.data b.data = true

instance : DecidableRel pyLt := fun a b => by
  unfold pyLt
  infer_instance

/-- Python's `a <= b` on strings (the reflexive closure of `pyLt`). -/
def pyLe (a b : String) : Prop := a = b ∨ pyLt a b

instance : DecidableRel pyLe := fun a b => by
  unfold pyLe
  infer_instance

theorem charListLt_irrefl : ∀ as : List Char, charListLt as as = false
  | [] => rfl
  | a :: as => by
    have := charListLt_irrefl as
    simp [charListLt, this]

theorem charListLt_trans : ∀ as bs cs : List Char,
    charListLt as bs = true → charListLt bs cs = true → charListLt as cs = true
  | [], [], _, h1, _ => by simp [charListLt] at h1
  | [], _ :: _, [], _, h2 => by simp [charListLt] at h2
  | [], _ :: _, _ :: _, _, _ => rfl
  | _ :: _, [], _, h1, _ => by simp [charListLt] at h1
  | _ :: _, _ :: _, [], _, h2 => by simp [charListLt] at h2
  | a :: as, b :: bs, c :: cs, h1, h2 => by
    simp only [charListLt] at h1 h2 ⊢
    by_cases hab : a < b
    · by_cases hbc : b < c
      · rw [if_pos (hab.trans hbc)]
      · rw [if_pos (lt_of_lt_of_le hab ?_)]
        rw [if_neg hbc] at h2
        by_cases hcb : c < b
        · simp [if_pos hcb] at h2
        · exact not_lt.mp hcb
    · rw [if_neg hab] at h1
      by_cases hba : b < a
      · simp [if_pos hba] at h1
      · rw [if_neg hba] at h1
        have hab' : a ≤ b := not_lt.mp hba
        have hba' : b ≤ a := not_lt.mp hab
        by_cases hbc : b < c
        · rw [if_pos (lt_of_le_of_lt hab' hbc)]
        · rw [if_neg hbc] at h2
          by_cases hcb : c < b
          · simp [if_pos hcb] at h2
          · rw [if_neg hcb] at h2
            have hbc' : b ≤ c := not_lt.mp hcb
            have hcb' : c ≤ b := not_lt.mp hbc
            rw [if_neg (by
              intro hac
              exact absurd (lt_of_lt_of_le hac (hcb'.trans hba')) (lt_irrefl a)),
              if_neg (by
              intro hca
              exact absurd (lt_of_lt_of_le hca (hab'.trans hbc')) (lt_irrefl c))]
            exact charListLt_trans as bs cs h1 h2

theorem charListLt_asymm {as bs : List Char}
    (h1 : charListLt as bs = true) (h2 : charListLt bs as = true) : False := by
  have := charListLt_trans as bs as h1 h2
  rw [charListLt_irrefl] at this
  exact Bool.false_ne_true this

theorem charListLt_total : ∀ as bs : List Char,
    as = bs ∨ charListLt as bs = true ∨ charListLt bs as = true
  | [], [] => Or.inl rfl
  | [], _ :: _ => Or.inr (Or.inl rfl)
  | _ :: _, [] => Or.inr (Or.inr rfl)
  | a :: as, b :: bs => by
    by_cases hab : a < b
    · exact Or.inr (Or.inl (by simp [charListLt, hab]))
    · by_cases hba : b < a
      · exact Or.inr (Or.inr (by simp [charListLt, hba]))
      · have hEq : a = b := le_antisymm (not_lt.mp hba) (not_lt.mp hab)
        rcases charListLt_total as bs with h | h | h
        · exact Or.inl (by rw [hEq, h])
        · exact Or.inr (Or.inl (by simp [charListLt, hab, hba, h]))
        · exact Or.inr (Or.inr (by subst hEq; simp [charListLt, hab, hba, h]))

instance : IsTotal String pyLe := ⟨by
  intro a b
  rcases charListLt_total a.data b.data with h | h | h
  · exact Or.inl (Or.inl (by cases a; cases b; exact congrArg String.mk h))
  · exact Or.inl (Or.inr h)
  · exact Or.inr (Or.inr h)⟩

instance : IsTrans String pyLe := ⟨by
  intro a b c hab hbc
  rcases hab with rfl | hab
  · exact hbc
  · rcases hbc with rfl | hbc
    · exact Or.inr hab
    · exact Or.inr (charListLt_trans _ _ _ hab hbc)⟩

instance : IsAntisymm String pyLe := ⟨by
  intro a b hab hba
  rcases hab with rfl | hab
  · rfl
  · rcases hba with rfl | hba
    · rfl
    · exact absurd hba (fun h => charListLt_asymm hab h)⟩

/-- The sort key `lambda x: (len(x), x)` used by `_safe_unique`:
compare by length first, then lexicographically. -/
def lenLex (a b : String) : Prop :=
  a.length < b.length ∨ (a.length = b.length ∧ pyLe a b)

instance : DecidableRel lenLex := fun a b => by
  unfold lenLex
  infer_instance

instance : IsTotal String lenLex := ⟨by
  intro a b
  rcases Nat.lt_trichotomy a.length b.length with h | h | h
  · exact Or.inl (Or.inl h)
  · rcases total_of pyLe a b with h2 | h2
    · exact Or.inl (Or.inr ⟨h, h2⟩)
    · exact Or.inr (Or.inr ⟨h.symm, h2⟩)
  · exact Or.inr (Or.inl h)⟩

instance : IsTrans String lenLex := ⟨by
  intro a b c hab hbc
  rcases hab with h1 | ⟨e1, l1⟩ <;> rcases hbc with h2 | ⟨e2, l2⟩
  · exact Or.inl (h1.trans h2)
  · exact Or.inl (e2 ▸ h1)
  · exact Or.inl (e1 ▸ h2)
  · exact Or.inr ⟨e1.trans e2, trans_of pyLe l1 l2⟩⟩

instance : IsAntisymm String lenLex := ⟨by
  intro a b hab hba
  rcases hab with h1 | ⟨e1, l1⟩ <;> rcases hba with h2 | ⟨e2, l2⟩
  · exact absurd (h1.trans h2) (lt_irrefl _)
  · exact absurd h1 (e2 ▸ lt_irrefl _)
  · exact absurd h2 (e1 ▸ lt_irrefl _)
  · exact antisymm_of pyLe l1 l2⟩

/-- Python `str.upper()` (character-wise; the inputs here are ASCII codes). -/
def pyUpper (s : String) : String := ⟨s.data.map Char.toUpper⟩

/-- Python `str.strip()`: drop leading and trailing whitespace. -/
def pyStrip (s : String) : String :=
  ⟨((s.data.dropWhile Char.isWhitespace).reverse.dropWhile Char.isWhitespace).reverse⟩

/-- Split a char list on a separator char, keeping empty fragments,
like Python `str.split(sep)` for a one-char separator. -/
def splitChars (sep : Char) : List Char → List (List Char)
  | [] => [[]]
  | c :: cs =>
    if c = sep then [] :: splitChars sep cs
    else
      match splitChars sep cs with
      | [] => [[c]]
      | t :: ts => (c :: t) :: ts

/-- Python `s.split(sep)` for a one-character separator. -/
def pySplit (sep : Char) (s : String) : List String :=
  (splitChars sep s.data).map String.mk

/-- Python `s.replace(";", ",")`. -/
def pyReplaceSemi (s : String) : String :=
  ⟨s.data.map (fun c => if c = ';' then ',' else c)⟩

/-- Split a char list on the two-char separator `||`, leftmost-first,
like Python `s.split("||")`. -/
def splitBars : List Char → List (List Char)
  | [] => [[]]
  | '|' :: '|' :: cs => [] :: splitBars cs
  | c :: cs =>
    match splitBars cs with
    | [] => [[c]]
    | t :: ts => (c :: t) :: ts

/-- Python `s.split("||")`. -/
def pySplitBars (s : String) : List String :=
  (splitBars s.data).map String.mk

/-- Python `sorted(set(xs))` on strings: deduplicate, then sort
lexicographically. -/
def pySortedSet (xs : List String) : List String :=
  List.insertionSort pyLe xs.dedup

/-- Python `sorted(set(xs), key=lambda x: (len(x), x))`. -/
def pySortedSetByLenLex (xs : List String) : List String :=
  List.insertionSort lenLex xs.dedup

theorem mem_pySortedSet {a : String} {xs : List String} :
    a ∈ pySortedSet xs ↔ a ∈ xs := by
  unfold pySortedSet
  rw [(List.perm_insertionSort pyLe xs.dedup).mem_iff, List.mem_dedup]

theorem sorted_pySortedSet (xs : List String) :
    List.Sorted pyLe (pySortedSet xs) :=
  List.sorted_insertionSort pyLe xs.dedup

theorem nodup_pySortedSet (xs : List String) : (pySortedSet xs).Nodup :=
  ((List.perm_insertionSort pyLe xs.dedup).nodup_iff).mpr (List.nodup_dedup xs)

theorem pySortedSet_eq_of_mem_iff {xs ys : List String}
    (h : ∀ a, a ∈ xs ↔ a ∈ ys) : pySortedSet xs = pySortedSet ys := by
  apply List.eq_of_perm_of_sorted _ (sorted_pySortedSet xs) (sorted_pySortedSet ys)
  unfold pySortedSet
  apply ((List.perm_insertionSort _ _).trans _).trans (List.perm_insertionSort _ _).symm
  rw [List.perm_ext_iff_of_nodup (List.nodup_dedup _) (List.nodup_dedup _)]
  intro a
  rw [List.mem_dedup, List.mem_dedup]
  exact h a

theorem mem_pySortedSetByLenLex {a : String} {xs : List String} :
    a ∈ pySortedSetByLenLex xs ↔ a ∈ xs := by
  unfold pySortedSetByLenLex
  rw [(List.perm_insertionSort lenLex xs.dedup).mem_iff, List.mem_dedup]

theorem sorted_pySortedSetByLenLex (xs : List String) :
    List.Sorted lenLex (pySortedSetByLenLex xs) :=
  List.sorted_insertionSort lenLex xs.dedup

theorem nodup_pySortedSetByLenLex (xs : List String) :
    (pySortedSetByLenLex xs).Nodup :=
  ((List.perm_insertionSort lenLex xs.dedup).nodup_iff).mpr (List.nodup_dedup xs)

/-- A Python float as it crosses the blend check: either a finite value
(rationals stand in for finite floats) or one of the special values that
`math.isnan` / `math.isinf` detect. -/
inductive PyFloat
  | nan
  | inf
  | val (q : ℚ)
  deriving DecidableEq

/-- Outcome of `float(getattr(m, "XGB_RULE_BLEND", default))`: the
attribute may be absent, present but raising on conversion, or a value. -/
inductive AttrVal
  | absent
  | unreadable
  | val (q : ℚ)
  deriving DecidableEq

/-- The external `proje` module: four opaque functions plus the optional
blend-weight attribute (spec §6). -/
structure Model where
  clean_icd_set_key : String → String
  predict_one : String → String → String → ℚ
  xgb_predict_ens : String → String → String → List String → Option PyFloat
  round_half_up : ℚ → Int
  XGB_RULE_BLEND : AttrVal

/-- The module-level mutable globals of `server.py`. -/
structure ServerState where
  _model : Option Model
  _model_err : Option String
  _OPTIONS_READY : Bool
  YASGRUP_LIST : List String
  BOLUM_LIST : List String
  ICD_LIST : List String

/-- The globals as initialised at import time. -/
def initialState : ServerState :=
  { _model := none, _model_err := none, _OPTIONS_READY := false,
    YASGRUP_LIST := [], BOLUM_LIST := [], ICD_LIST := [] }

/-- `_get_model` (server.py:25-36).  `imp` is the outcome of
`import_module("proje")`, supplied by the environment; a raised
`RuntimeError` is the `.error` result. -/
def _get_model (imp : Except String Model) (s : ServerState) :
    Except String Model × ServerState :=
  match s._model with
  | some m => (.ok m, s)
  | none =>
    match s._model_err with
    | some e => (.error e, s)
    | none =>
      match imp with
      | .ok m => (.ok m, { s with _model := some m })
      | .error e =>
        (.error ("Model yüklenemedi: " ++ e),
         { s with _model_err := some ("Model yüklenemedi: " ++ e) })

/-- `_get_blend_w` (server.py:38-43); `d` is the `default` argument
(call sites pass `0.50`).  Any exception — model load failure or an
unconvertible attribute — yields the default. -/
def _get_blend_w (imp : Except String Model) (s : ServerState) (d : ℚ) :
    ℚ × ServerState :=
  match _get_model imp s with
  | (.ok m, s2) =>
    (match m.XGB_RULE_BLEND with
     | .val q => q
     | _ => d, s2)
  | (.error _, s2) => (d, s2)

/-- The blend weight `_get_blend_w(0.50)` yields once the model is
loaded: the configured value, or `0.50` when absent/unreadable. -/
def Model.blendVal (m : Model) : ℚ :=
  match m.XGB_RULE_BLEND with
  | .val q => q
  | _ => 1/2

/-- `_safe_unique` (server.py:51-60) on a spreadsheet column; `none`
cells are the NaNs removed by `dropna()`. -/
def _safe_unique (col : List (Option String)) : List String :=
  pySortedSetByLenLex (((col.filterMap id).map pyStrip).filter (fun s => s ≠ ""))

/-- `_yas_to_group` (server.py:70-84).  The argument is the outcome of
`float(y)`: `none` when the conversion raises (unparseable age). -/
def _yas_to_group : Option ℚ → Option String
  | none => none
  | some y =>
    if y < 0 then none
    else if y ≤ 1 then some "0-1"
    else if y ≤ 5 then some "2-5"
    else if y ≤ 10 then some "5-10"
    else if y ≤ 15 then some "10-15"
    else if y ≤ 25 then some "15-25"
    else if y ≤ 35 then some "25-35"
    else if y ≤ 50 then some "35-50"
    else if y ≤ 65 then some "50-65"
    else some "65+"

/-- The primary spreadsheet (`Veri2024.xlsx`) as read by pandas: which
of the relevant columns exist, and their cells.  A `none` cell is a
null/NaN dropped by `dropna()`; in the numeric age column a cell is the
outcome of `float(...)` (`none` when unparseable). -/
structure ExcelDF where
  hasYasGrup : Bool
  yasgrupCol : List (Option String)
  hasYas : Bool
  yasCol : List (Option ℚ)
  nrows : Nat
  bolumCol : List (Option String)
  hasIcdKodu : Bool
  icdKoduCol : List (Option String)

/-- The secondary spreadsheet (`PRED_LOS.xlsx`): pre-derived age-group
and department columns and the ICD-set-key column.  A column absent from
the file is the empty list (`df.get` falls back to an empty series). -/
structure PredDF where
  yasgrupCol : List (Option String)
  bolumCol : List (Option String)
  icdSetKeyCol : List (Option String)

/-- What the filesystem offers to `_load_options_once`: the primary file
(readable), only the secondary file (readable), neither file, or any
exception raised while reading/parsing. -/
inductive FsState
  | excel (df : ExcelDF)
  | predLos (df : PredDF)
  | neither
  | failure

/-- `_derive_yasgrup_if_needed` (server.py:62-88), reduced to the
effective `YaşGrup` column it leaves in the frame (the only part read
afterwards).  Without both columns the frame gets an all-null column. -/
def _derive_yasgrup_if_needed (df : ExcelDF) : List (Option String) :=
  if df.hasYasGrup then df.yasgrupCol
  else if !df.hasYas then List.replicate df.nrows none
  else df.yasCol.map _yas_to_group

/-- One cell of the `ICD Kodu` column, split and normalised as in
server.py:103: `[x.strip().upper() for x in s.replace(";", ",").split(",") if x.strip()]`. -/
def splitIcdCell (s : String) : List String :=
  (pySplit ',' (pyReplaceSemi s)).filterMap
    (fun x => if pyStrip x = "" then none else some (pyUpper (pyStrip x)))

def DEFAULT_YASGRUP : List String := ["15-25", "25-35", "35-50", "50-65", "65+"]

def DEFAULT_BOLUM : List String := ["Dahiliye", "Kardiyoloji", "Genel Cerrahi"]

def DEFAULT_ICD : List String := ["I10", "E11", "J18", "K35", "N39"]

/-- `_load_options_once` (server.py:90-130).  The `try`/`except` makes
every raised exception (`FsState.failure`) fall back to the defaults. -/
def _load_options_once (fs : FsState) (s : ServerState) : ServerState :=
  if s._OPTIONS_READY then s
  else
    match fs with
    | .excel df =>
      { s with
        ICD_LIST :=
          if df.hasIcdKodu then
            pySortedSet (((df.icdKoduCol.filterMap id).map splitIcdCell).flatten)
          else [],
        YASGRUP_LIST := _safe_unique (_derive_yasgrup_if_needed df),
        BOLUM_LIST := _safe_unique df.bolumCol,
        _OPTIONS_READY := true }
    | .predLos df =>
      { s with
        YASGRUP_LIST := _safe_unique df.yasgrupCol,
        BOLUM_LIST := _safe_unique df.bolumCol,
        ICD_LIST :=
          pySortedSet (((df.icdSetKeyCol.filterMap id).map
            (fun key => (pySplitBars key).filter (fun p => p ≠ ""))).flatten),
        _OPTIONS_READY := true }
    | .neither =>
      { s with YASGRUP_LIST := DEFAULT_YASGRUP, BOLUM_LIST := DEFAULT_BOLUM,
               ICD_LIST := DEFAULT_ICD, _OPTIONS_READY := true }
    | .failure =>
      { s with YASGRUP_LIST := DEFAULT_YASGRUP, BOLUM_LIST := DEFAULT_BOLUM,
               ICD_LIST := DEFAULT_ICD, _OPTIONS_READY := true }

/-- The multi-select contribution to the ICD list (server.py:213-217):
`[str(x).strip().upper() for x in icd_multi if str(x).strip()]`, empty
when the field is absent. -/
def icdMultiTokens : Option (List String) → List String
  | some l => (l.filter (fun x => pyStrip x ≠ "")).map (fun x => pyUpper (pyStrip x))
  | none => []

/-- The free-text contribution (server.py:218-222): split the text on
commas/semicolons, strip and upper-case each fragment, keep the
non-blank ones.  A falsy (empty) text contributes nothing. -/
def icdFreeTokens : Option String → List String
  | some t =>
    if t ≠ "" then
      (pySplit ',' (pyReplaceSemi t)).filterMap (fun x =>
        let y := pyUpper (pyStrip x)
        if y = "" then none else some y)
    else []
  | none => []

/-- `_icd_key_from_inputs` (server.py:211-225): merge the multi-select
list and the free text into the sorted, deduplicated ICD list and its
`||`-joined key. -/
def _icd_key_from_inputs (icd_multi : Option (List String))
    (icd_free_text : Option String) : String × List String :=
  let icds := pySortedSet (icdMultiTokens icd_multi ++ icdFreeTokens icd_free_text)
  (String.intercalate "||" icds, icds)

/-- The five kinds of calls the handlers make into the external model.
Handlers return the list of calls they performed, in order. -/
inductive MCall
  | cleanKey (rawKey : String)
  | predictOne (yasgrup bolum icdKey : String)
  | xgbEns (yasgrup bolum icdKey : String) (icds : List String)
  | blendRead
  | roundHalf (x : ℚ)
  deriving DecidableEq

/-- A JSON value as far as `api_predict` observes one: its truthiness
and whether it is an array.  Array elements appear after `str(x)`. -/
inductive JVal
  | null
  | bool (b : Bool)
  | num (q : ℚ)
  | str (s : String)
  | arr (l : List String)
  | obj (isEmpty : Bool)
  deriving DecidableEq

/-- Python truthiness of a JSON value. -/
def JVal.truthy : JVal → Bool
  | .null => false
  | .bool b => b
  | .num q => if q = 0 then false else true
  | .str s => if s = "" then false else true
  | .arr l => !l.isEmpty
  | .obj isEmpty => !isEmpty

/-- `isinstance(v, list)`. -/
def JVal.isList : JVal → Bool
  | .arr _ => true
  | _ => false

/-- The JSON payload of `POST /api/predict`: each field may be absent;
`yasgrup`/`bolum` are read through `str(...)`. -/
structure Payload where
  yasgrup : Option String
  bolum : Option String
  icd : Option JVal

/-- The JSON body `api_predict` returns on success. -/
structure PredictResponse where
  yasgrup : String
  bolum : String
  icd : List String
  pred_rule : ℚ
  pred_xgb_ens : Option PyFloat
  pred_final : ℚ
  pred_final_rounded : Int
  deriving DecidableEq

/-- The three response shapes of `POST /api/predict`. -/
inductive ApiOut
  | error500 (msg : String)
  | error400 (msg : String)
  | ok (resp : PredictResponse)
  deriving DecidableEq

/-- HTTP status of an `api_predict` response. -/
def ApiOut.status : ApiOut → Nat
  | .error500 _ => 500
  | .error400 _ => 400
  | .ok _ => 200

/-- `icds_in = payload.get("icd", []) or []` (server.py:322): an absent
field defaults to the empty list and a falsy value is replaced by it. -/
def icdsInOf (icd : Option JVal) : JVal :=
  match icd with
  | none => JVal.arr []
  | some v => if v.truthy then v else JVal.arr []

/-- `api_predict` (server.py:312-344).  Alongside the response it
returns the updated globals and the model calls performed. -/
def api_predict (imp : Except String Model) (fs : FsState) (p : Payload)
    (s : ServerState) : ApiOut × ServerState × List MCall :=
  let s0 := _load_options_once fs s
  match _get_model imp s0 with
  | (.error e, s1) => (.error500 e, s1, [])
  | (.ok m, s1) =>
    let yasgrup := pyStrip (p.yasgrup.getD "")
    let bolum := pyStrip (p.bolum.getD "")
    match icdsInOf p.icd with
    | .arr icds_in =>
      let rawKey := String.intercalate "||"
        (pySortedSet ((icds_in.filter (fun x => pyStrip x ≠ "")).map
          (fun x => pyUpper (pyStrip x))))
      let icd_key := m.clean_icd_set_key rawKey
      let pred_rule := m.predict_one yasgrup bolum icd_key
      let p_ens := m.xgb_predict_ens yasgrup bolum icd_key icds_in
      match p_ens with
      | some (.val x) =>
        let ws := _get_blend_w imp s1 (1/2)
        let pred_final := (1 - ws.1) * pred_rule + ws.1 * x
        (.ok { yasgrup := yasgrup, bolum := bolum, icd := icds_in,
               pred_rule := pred_rule, pred_xgb_ens := some (.val x),
               pred_final := pred_final,
               pred_final_rounded := m.round_half_up pred_final },
         ws.2,
         [.cleanKey rawKey, .predictOne yasgrup bolum icd_key,
          .xgbEns yasgrup bolum icd_key icds_in, .blendRead, .roundHalf pred_final])
      | pe =>
        (.ok { yasgrup := yasgrup, bolum := bolum, icd := icds_in,
               pred_rule := pred_rule, pred_xgb_ens := pe,
               pred_final := pred_rule,
               pred_final_rounded := m.round_half_up pred_rule },
         s1,
         [.cleanKey rawKey, .predictOne yasgrup bolum icd_key,
          .xgbEns yasgrup bolum icd_key icds_in, .roundHalf pred_rule])
    | _ => (.error400 "icd must be list", s1, [])

/-- What `POST /tahmin` renders: either the 500 page whose result block
is the warning `div`, or the success page with the computed values
(the HTML around them is presentation only). -/
inductive TahminOut
  | errorPage (status : Nat) (result_block : String)
  | okPage (yasgrup bolum : String) (icds : List String) (pred_rule : ℚ)
      (p_ens : Option PyFloat) (pred_final : ℚ) (pred_final_rounded : Int)
  deriving DecidableEq

/-- `tahmin_post` (server.py:261-310). -/
def tahmin_post (imp : Except String Model) (fs : FsState)
    (yasgrup bolum : String) (icd_list : Option (List String))
    (icd_free : Option String) (s : ServerState) :
    TahminOut × ServerState × List MCall :=
  let s0 := _load_options_once fs s
  match _get_model imp s0 with
  | (.error e, s1) =>
    (.errorPage 500 ("<div class=\"warn\"><b>Hata:</b> " ++ e ++ "</div>"), s1, [])
  | (.ok m, s1) =>
    let kp := _icd_key_from_inputs icd_list icd_free
    let icd_key := m.clean_icd_set_key kp.1
    let pred_rule := m.predict_one yasgrup bolum icd_key
    let p_ens := m.xgb_predict_ens yasgrup bolum icd_key kp.2
    match p_ens with
    | some (.val x) =>
      let ws := _get_blend_w imp s1 (1/2)
      let pred_final := (1 - ws.1) * pred_rule + ws.1 * x
      (.okPage yasgrup bolum kp.2 pred_rule (some (.val x)) pred_final
         (m.round_half_up pred_final),
       ws.2,
       [.cleanKey kp.1, .predictOne yasgrup bolum icd_key,
        .xgbEns yasgrup bolum icd_key kp.2, .blendRead, .roundHalf pred_final])
    | pe =>
      (.okPage yasgrup bolum kp.2 pred_rule pe pred_rule
         (m.round_half_up pred_rule),
       s1,
       [.cleanKey kp.1, .predictOne yasgrup bolum icd_key,
        .xgbEns yasgrup bolum icd_key kp.2, .roundHalf pred_rule])

/-- The `GET /health` response (server.py:238-240). -/
structure HealthOut where
  status : String
  deriving DecidableEq

def health : HealthOut := { status := "ok" }

/-- The `GET /api/options` JSON body. -/
structure OptionsOut where
  yasgrup : List String
  bolum : List String
  icd : List String
  deriving DecidableEq

/-- `api_options` (server.py:346-349). -/
def api_options (fs : FsState) (s : ServerState) : OptionsOut × ServerState :=
  let s0 := _load_options_once fs s
  ({ yasgrup := s0.YASGRUP_LIST, bolum := s0.BOLUM_LIST, icd := s0.ICD_LIST }, s0)

/-! ### Shared lemmas about the state machine -/

theorem get_model_of_cached {s : ServerState} {m : Model}
    (hs : s._model = some m) (imp : Except String Model) :
    _get_model imp s = (.ok m, s) := by
  unfold _get_model
  rw [hs]

theorem get_model_of_cached_err {s : ServerState} {msg : String}
    (h1 : s._model = none) (h2 : s._model_err = some msg)
    (imp : Except String Model) :
    _get_model imp s = (.error msg, s) := by
  unfold _get_model
  rw [h1, h2]

theorem get_model_first_failure {s : ServerState} (e : String)
    (h1 : s._model = none) (h2 : s._model_err = none) :
    _get_model (.error e) s =
      (.error ("Model yüklenemedi: " ++ e),
       { s with _model_err := some ("Model yüklenemedi: " ++ e) }) := by
  unfold _get_model
  rw [h1, h2]

theorem get_model_ok_model {imp : Except String Model} {s s1 : ServerState} {m : Model}
    (h : _get_model imp s = (.ok m, s1)) : s1._model = some m := by
  unfold _get_model at h
  rcases hs : s._model with _ | m0
  · rw [hs] at h
    rcases hse : s._model_err with _ | e0
    · rw [hse] at h
      cases imp with
      | ok mm =>
        obtain ⟨h1, h2⟩ := Prod.mk.injEq .. ▸ h
        obtain rfl := Except.ok.inj h1
        rw [← h2]
      | error e => simp at h
    · rw [hse] at h
      simp at h
  · rw [hs] at h
    obtain ⟨h1, h2⟩ := Prod.mk.injEq .. ▸ h
    obtain rfl := Except.ok.inj h1
    rw [← h2, hs]

theorem get_blend_w_of_cached {s : ServerState} {m : Model}
    (hs : s._model = some m) (imp : Except String Model) :
    _get_blend_w imp s (1/2) = (m.blendVal, s) := by
  unfold _get_blend_w
  rw [get_model_of_cached hs imp]
  rfl

theorem load_options_preserves_model (fs : FsState) (s : ServerState) :
    (_load_options_once fs s)._model = s._model
    ∧ (_load_options_once fs s)._model_err = s._model_err := by
  unfold _load_options_once
  split
  · exact ⟨rfl, rfl⟩
  · cases fs <;> exact ⟨rfl, rfl⟩

/-! ### Concrete fixtures used by witnesses and counterexamples -/

/-- A concrete external model whose ensemble declines every request. -/
def mRuleOnly : Model :=
  { clean_icd_set_key := fun k => k,
    predict_one := fun _ _ _ => 3,
    xgb_predict_ens := fun _ _ _ _ => none,
    round_half_up := fun _ => 3,
    XGB_RULE_BLEND := .absent }

/-- A payload whose `icd` field is a JSON array. -/
def pListIcd : Payload :=
  { yasgrup := some "35-50", bolum := some "Dahiliye", icd := some (.arr ["i10", " e11 "]) }

/-- A payload whose `icd` field is a truthy non-list value. -/
def pStrIcd : Payload :=
  { yasgrup := some "35-50", bolum := some "Dahiliye", icd := some (.str "I10") }

/-- A payload whose `icd` field is present, not a list, but falsy. -/
def pFalsyIcd : Payload :=
  { yasgrup := some "35-50", bolum := some "Dahiliye", icd := some (.str "") }

/-- A concrete primary spreadsheet with an age column, a department
column and an ICD column. -/
def dfSample : ExcelDF :=
  { hasYasGrup := false,
    yasgrupCol := [],
    hasYas := true,
    yasCol := [some 42, some 7, none, some (-3)],
    nrows := 4,
    bolumCol := [some "Dahiliye", some " Kardiyoloji ", none, some "Dahiliye"],
    hasIcdKodu := true,
    icdKoduCol := [some "i10; e11", none, some "J18, i10"] }

/-- A concrete external model with a finite ensemble estimate and a
configured blend weight. -/
def mEns : Model :=
  { clean_icd_set_key := fun k => k,
    predict_one := fun _ _ _ => 3,
    xgb_predict_ens := fun _ _ _ _ => some (.val 2),
    round_half_up := fun _ => 3,
    XGB_RULE_BLEND := .val (1/4) }

/-! ### The claims -/

/-- Claim C5: the age-to-age-group mapping is total on `y ≥ 0`, sending
each nonnegative age into exactly one of the nine buckets `[0,1]→"0-1"`,
`(1,5]→"2-5"`, `(5,10]→"5-10"`, `(10,15]→"10-15"`, `(15,25]→"15-25"`,
`(25,35]→"25-35"`, `(35,50]→"35-50"`, `(50,65]→"50-65"`, `(65,∞)→"65+"`;
negative and unparseable ages map to the null group, and null groups are
excluded from the catalog column `_safe_unique` builds. -/
theorem yas_to_group_buckets (y : ℚ) :
    _yas_to_group none = none
    ∧ (y < 0 → _yas_to_group (some y) = none)
    ∧ (0 ≤ y → y ≤ 1 → _yas_to_group (some y) = some "0-1")
    ∧ (1 < y → y ≤ 5 → _yas_to_group (some y) = some "2-5")
    ∧ (5 < y → y ≤ 10 → _yas_to_group (some y) = some "5-10")
    ∧ (10 < y → y ≤ 15 → _yas_to_group (some y) = some "10-15")
    ∧ (15 < y → y ≤ 25 → _yas_to_group (some y) = some "15-25")
    ∧ (25 < y → y ≤ 35 → _yas_to_group (some y) = some "25-35")
    ∧ (35 < y → y ≤ 50 → _yas_to_group (some y) = some "35-50")
    ∧ (50 < y → y ≤ 65 → _yas_to_group (some y) = some "50-65")
    ∧ (65 < y → _yas_to_group (some y) = some "65+")
    ∧ (0 ≤ y → (_yas_to_group (some y)).isSome = true)
    ∧ (∀ (cells : List (Option ℚ)) (g : String),
        g ∈ _safe_unique (cells.map _yas_to_group) →
        ∃ z : ℚ, some z ∈ cells ∧ 0 ≤ z) := by
  refine ⟨rfl, ?_, ?_, ?_, ?_, ?_, ?_, ?_, ?_, ?_, ?_, ?_, ?_⟩
  · intro h1
    simp only [_yas_to_group]
    rw [if_pos h1]
  · intro h1 h2
    simp only [_yas_to_group]
    rw [if_neg (by linarith), if_pos h2]
  · intro h1 h2
    simp only [_yas_to_group]
    rw [if_neg (by linarith), if_neg (by linarith), if_pos h2]
  · intro h1 h2
    simp only [_yas_to_group]
    rw [if_neg (by linarith), if_neg (by linarith), if_neg (by linarith), if_pos h2]
  · intro h1 h2
    simp only [_yas_to_group]
    rw [if_neg (by linarith), if_neg (by linarith), if_neg (by linarith),
      if_neg (by linarith), if_pos h2]
  · intro h1 h2
    simp only [_yas_to_group]
    rw [if_neg (by linarith), if_neg (by linarith), if_neg (by linarith),
      if_neg (by linarith), if_neg (by linarith), if_pos h2]
  · intro h1 h2
    simp only [_yas_to_group]
    rw [if_neg (by linarith), if_neg (by linarith), if_neg (by linarith),
      if_neg (by linarith), if_neg (by linarith), if_neg (by linarith), if_pos h2]
  · intro h1 h2
    simp only [_yas_to_group]
    rw [if_neg (by linarith), if_neg (by linarith), if_neg (by linarith),
      if_neg (by linarith), if_neg (by linarith), if_neg (by linarith),
      if_neg (by linarith), if_pos h2]
  · intro h1 h2
    simp only [_yas_to_group]
    rw [if_neg (by linarith), if_neg (by linarith), if_neg (by linarith),
      if_neg (by linarith), if_neg (by linarith), if_neg (by linarith),
      if_neg (by linarith), if_neg (by linarith), if_pos h2]
  · intro h1
    simp only [_yas_to_group]
    rw [if_neg (by linarith), if_neg (by linarith), if_neg (by linarith),
      if_neg (by linarith), if_neg (by linarith), if_neg (by linarith),
      if_neg (by linarith), if_neg (by linarith), if_neg (by linarith)]
  · intro h0
    simp only [_yas_to_group]
    rw [if_neg (by linarith)]
    by_cases c1 : y ≤ 1
    · rw [if_pos c1]; rfl
    rw [if_neg c1]
    by_cases c2 : y ≤ 5
    · rw [if_pos c2]; rfl
    rw [if_neg c2]
    by_cases c3 : y ≤ 10
    · rw [if_pos c3]; rfl
    rw [if_neg c3]
    by_cases c4 : y ≤ 15
    · rw [if_pos c4]; rfl
    rw [if_neg c4]
    by_cases c5 : y ≤ 25
    · rw [if_pos c5]; rfl
    rw [if_neg c5]
    by_cases c6 : y ≤ 35
    · rw [if_pos c6]; rfl
    rw [if_neg c6]
    by_cases c7 : y ≤ 50
    · rw [if_pos c7]; rfl
    rw [if_neg c7]
    by_cases c8 : y ≤ 65
    · rw [if_pos c8]; rfl
    rw [if_neg c8]
    rfl
  · intro cells g hg
    unfold _safe_unique at hg
    rw [mem_pySortedSetByLenLex, List.mem_filter] at hg
    obtain ⟨hg1, _⟩ := hg
    rw [List.mem_map] at hg1
    obtain ⟨o, ho, rfl⟩ := hg1
    rw [List.mem_filterMap] at ho
    obtain ⟨oo, hoo, hid⟩ := ho
    rw [List.mem_map] at hoo
    obtain ⟨c, hc, hcg⟩ := hoo
    rcases c with _ | z
    · rw [show _yas_to_group none = none from rfl] at hcg
      rw [← hcg] at hid
      simp at hid
    · refine ⟨z, hc, ?_⟩
      by_cases hneg : z < 0
      · exfalso
        simp only [_yas_to_group] at hcg
        rw [if_pos hneg] at hcg
        rw [← hcg] at hid
        simp at hid
      · exact not_lt.mp hneg

/-- Claim C5 witness: age 20 lies in `(15,25]` and maps to `"15-25"`. -/
theorem yas_to_group_buckets_witness :
    (15 < (20 : ℚ) ∧ (20 : ℚ) ≤ 25) ∧ _yas_to_group (some 20) = some "15-25" :=
  ⟨⟨by norm_num, by norm_num⟩,
   (yas_to_group_buckets 20).2.2.2.2.2.2.1 (by norm_num) (by norm_num)⟩

/-- Claim C6: once the option catalog has been loaded
(`_OPTIONS_READY` is set), every further call to the loader is the
identity on the state, whatever the filesystem now contains — no file is
re-read and the three option lists are unchanged. -/
theorem load_options_idempotent (fs : FsState) (s : ServerState)
    (h : s._OPTIONS_READY = true) : _load_options_once fs s = s := by
  unfold _load_options_once
  rw [if_pos h]

/-- Claim C6 witness: reloading an already-loaded state changes nothing,
even when the filesystem now reports a failure. -/
theorem load_options_idempotent_witness :
    ({ initialState with _OPTIONS_READY := true } : ServerState)._OPTIONS_READY = true
    ∧ _load_options_once .failure { initialState with _OPTIONS_READY := true }
        = { initialState with _OPTIONS_READY := true } :=
  ⟨rfl, load_options_idempotent .failure _ rfl⟩

/-- Claim C4: the catalog loader absorbs every failure (it is a total
function); a raised exception and the missing-files case both produce
the fixed default catalog, and with neither spreadsheet present
`GET /api/options` returns exactly the default option lists. -/
theorem catalog_failure_defaults :
    (∀ s : ServerState, s._OPTIONS_READY = false →
      ((_load_options_once .failure s).YASGRUP_LIST = DEFAULT_YASGRUP
        ∧ (_load_options_once .failure s).BOLUM_LIST = DEFAULT_BOLUM
        ∧ (_load_options_once .failure s).ICD_LIST = DEFAULT_ICD)
      ∧ ((_load_options_once .neither s).YASGRUP_LIST = DEFAULT_YASGRUP
        ∧ (_load_options_once .neither s).BOLUM_LIST = DEFAULT_BOLUM
        ∧ (_load_options_once .neither s).ICD_LIST = DEFAULT_ICD))
    ∧ (api_options .neither initialState).1 =
        { yasgrup := ["15-25", "25-35", "35-50", "50-65", "65+"],
          bolum := ["Dahiliye", "Kardiyoloji", "Genel Cerrahi"],
          icd := ["I10", "E11", "J18", "K35", "N39"] } := by
  constructor
  · intro s h
    unfold _load_options_once
    rw [if_neg (by rw [h]; exact Bool.false_ne_true)]
    exact ⟨⟨rfl, rfl, rfl⟩, ⟨rfl, rfl, rfl⟩⟩
  · rfl

/-- Claim C4 witness: the fresh state is not yet loaded, and a load
failure there yields the default ICD list. -/
theorem catalog_failure_defaults_witness :
    initialState._OPTIONS_READY = false
    ∧ (_load_options_once .failure initialState).ICD_LIST = DEFAULT_ICD :=
  ⟨rfl, (catalog_failure_defaults.1 initialState rfl).1.2.2⟩

/-- Claim C9: reading the blend weight never fails: when the model
resolves and `XGB_RULE_BLEND` is absent or unreadable the weight is
exactly `0.50`; when it is set the weight is the configured value; and
when even the model fails to load the weight is `0.50`. -/
theorem blend_weight_default :
    (∀ (imp : Except String Model) (s : ServerState) (m : Model),
      (_get_model imp s).1 = .ok m →
      (m.XGB_RULE_BLEND = .absent → (_get_blend_w imp s (1/2)).1 = 1/2)
      ∧ (m.XGB_RULE_BLEND = .unreadable → (_get_blend_w imp s (1/2)).1 = 1/2)
      ∧ (∀ q : ℚ, m.XGB_RULE_BLEND = .val q → (_get_blend_w imp s (1/2)).1 = q))
    ∧ (∀ (imp : Except String Model) (s : ServerState) (e : String),
      (_get_model imp s).1 = .error e → (_get_blend_w imp s (1/2)).1 = 1/2) := by
  constructor
  · intro imp s m h
    rcases hE : _get_model imp s with ⟨r, s2⟩
    rw [hE] at h
    simp only at h
    subst h
    unfold _get_blend_w
    rw [hE]
    refine ⟨fun ha => ?_, fun ha => ?_, fun q ha => ?_⟩ <;> (simp only; rw [ha])
  · intro imp s e h
    rcases hE : _get_model imp s with ⟨r, s2⟩
    rw [hE] at h
    simp only at h
    subst h
    unfold _get_blend_w
    rw [hE]

/-- Claim C9 witness: with the attribute absent the weight read yields
exactly `1/2`. -/
theorem blend_weight_default_witness :
    (_get_model (.ok mRuleOnly) initialState).1 = .ok mRuleOnly
    ∧ mRuleOnly.XGB_RULE_BLEND = .absent
    ∧ (_get_blend_w (.ok mRuleOnly) initialState (1/2)).1 = 1/2 :=
  ⟨rfl, rfl, (blend_weight_default.1 (.ok mRuleOnly) initialState mRuleOnly rfl).1 rfl⟩

/-- Claim C10: a failed model import is sticky.  With the error cached,
`_get_model` raises the cached message without consulting the import at
all; the first failure caches the message; and after a failure every
later `/api/predict` and `/tahmin` request keeps failing with that
message even when the module has become importable. -/
theorem model_error_sticky :
    (∀ (imp : Except String Model) (s : ServerState) (msg : String),
      s._model = none → s._model_err = some msg →
      _get_model imp s = (.error msg, s))
    ∧ (∀ (e : String) (s : ServerState),
      s._model = none → s._model_err = none →
      _get_model (.error e) s =
        (.error ("Model yüklenemedi: " ++ e),
         { s with _model_err := some ("Model yüklenemedi: " ++ e) }))
    ∧ (∀ (e : String) (m : Model) (fs : FsState) (p : Payload) (s : ServerState),
      s._model = none → s._model_err = none →
      (api_predict (.ok m) fs p ((_get_model (.error e) s).2)).1
        = .error500 ("Model yüklenemedi: " ++ e))
    ∧ (∀ (e : String) (m : Model) (fs : FsState) (yg b : String)
        (il : Option (List String)) (ifr : Option String) (s : ServerState),
      s._model = none → s._model_err = none →
      (tahmin_post (.ok m) fs yg b il ifr ((_get_model (.error e) s).2)).1
        = .errorPage 500
            ("<div class=\"warn\"><b>Hata:</b> " ++ ("Model yüklenemedi: " ++ e) ++ "</div>")) := by
  refine ⟨fun imp s msg h1 h2 => get_model_of_cached_err h1 h2 imp,
    fun e s h1 h2 => get_model_first_failure e h1 h2, ?_, ?_⟩
  · intro e m fs p s h1 h2
    rw [get_model_first_failure e h1 h2]
    have hp := load_options_preserves_model fs { s with _model_err := some ("Model yüklenemedi: " ++ e) }
    have hcache := get_model_of_cached_err (hp.1.trans h1) hp.2 (.ok m)
    simp only [api_predict]
    rw [hcache]
  · intro e m fs yg b il ifr s h1 h2
    rw [get_model_first_failure e h1 h2]
    have hp := load_options_preserves_model fs { s with _model_err := some ("Model yüklenemedi: " ++ e) }
    have hcache := get_model_of_cached_err (hp.1.trans h1) hp.2 (.ok m)
    simp only [tahmin_post]
    rw [hcache]

/-- Claim C10 witness: after a first failed import, a later
`/api/predict` request with an importable module still fails with the
cached message. -/
theorem model_error_sticky_witness :
    initialState._model = none ∧ initialState._model_err = none
    ∧ (api_predict (.ok mRuleOnly) .neither pListIcd
        ((_get_model (.error "boom") initialState).2)).1
      = .error500 "Model yüklenemedi: boom" :=
  ⟨rfl, rfl, model_error_sticky.2.2.1 "boom" mRuleOnly .neither pListIcd initialState rfl rfl⟩

/-- Claim C3: when the model import fails, `/api/predict` answers
HTTP 500 with the error message, `/tahmin` answers HTTP 500 with the
rendered warning block, and neither handler performs any model call
(empty call trace); `/health` and `/api/options` do not depend on the
model state at all. -/
theorem model_unavailable_responses :
    (∀ (imp : Except String Model) (fs : FsState) (p : Payload) (s : ServerState) (e : String),
      (_get_model imp (_load_options_once fs s)).1 = .error e →
      api_predict imp fs p s
          = (.error500 e, (_get_model imp (_load_options_once fs s)).2, [])
        ∧ (ApiOut.error500 e).status = 500)
    ∧ (∀ (imp : Except String Model) (fs : FsState) (yg b : String)
        (il : Option (List String)) (ifr : Option String) (s : ServerState) (e : String),
      (_get_model imp (_load_options_once fs s)).1 = .error e →
      tahmin_post imp fs yg b il ifr s
        = (.errorPage 500 ("<div class=\"warn\"><b>Hata:</b> " ++ e ++ "</div>"),
           (_get_model imp (_load_options_once fs s)).2, []))
    ∧ health = { status := "ok" }
    ∧ (∀ (fs : FsState) (s : ServerState) (mo : Option Model) (me : Option String),
      (api_options fs { s with _model := mo, _model_err := me }).1
        = (api_options fs s).1) := by
  refine ⟨?_, ?_, rfl, ?_⟩
  · intro imp fs p s e h
    rcases hE : _get_model imp (_load_options_once fs s) with ⟨r, s2⟩
    rw [hE] at h
    simp only at h
    subst h
    refine ⟨?_, rfl⟩
    simp only [api_predict]
    rw [hE]
  · intro imp fs yg b il ifr s e h
    rcases hE : _get_model imp (_load_options_once fs s) with ⟨r, s2⟩
    rw [hE] at h
    simp only at h
    subst h
    simp only [tahmin_post]
    rw [hE]
  · intro fs s mo me
    simp only [api_options, _load_options_once]
    have hready : ({ s with _model := mo, _model_err := me } : ServerState)._OPTIONS_READY
        = s._OPTIONS_READY := rfl
    by_cases h : s._OPTIONS_READY = true
    · rw [if_pos h, if_pos (hready.trans h)]
    · rw [if_neg h, if_neg (fun hc => h (hready.symm.trans hc))]
      cases fs <;> rfl

/-- Claim C3 witness: a failing import yields the 500 error response
with no model calls. -/
theorem model_unavailable_responses_witness :
    (_get_model (.error "boom") (_load_options_once .neither initialState)).1
      = .error "Model yüklenemedi: boom"
    ∧ api_predict (.error "boom") .neither pListIcd initialState
        = (.error500 "Model yüklenemedi: boom",
           (_get_model (.error "boom") (_load_options_once .neither initialState)).2, [])
    ∧ (ApiOut.error500 "Model yüklenemedi: boom").status = 500 :=
  ⟨rfl,
   (model_unavailable_responses.1 (.error "boom") .neither pListIcd initialState
     "Model yüklenemedi: boom" rfl).1,
   (model_unavailable_responses.1 (.error "boom") .neither pListIcd initialState
     "Model yüklenemedi: boom" rfl).2⟩

/-- Claim C7 counterexample: the payload `{"icd": ""}` has `icd`
present and not a list, yet the endpoint answers 200 and calls the
model: `payload.get("icd", []) or []` turns every falsy value into the
empty list before the type check. -/
theorem icd_nonlist_falsy_not_400 :
    pFalsyIcd.icd = some (JVal.str "")
    ∧ (JVal.str "").isList = false
    ∧ (api_predict (.ok mRuleOnly) .neither pFalsyIcd initialState).1.status = 200
    ∧ (api_predict (.ok mRuleOnly) .neither pFalsyIcd initialState).2.2 ≠ [] :=
  ⟨rfl, rfl, by decide, by decide⟩

/-- Claim C7 (amended): for every payload whose `icd` field is present
with a truthy non-list value, if the model import resolves the response
is HTTP 400 with an error object and no model function is called. -/
theorem icd_nonlist_truthy_400 :
    ∀ (imp : Except String Model) (fs : FsState) (p : Payload) (s : ServerState)
      (m : Model) (v : JVal),
      (_get_model imp (_load_options_once fs s)).1 = .ok m →
      p.icd = some v → v.truthy = true → v.isList = false →
      api_predict imp fs p s
          = (.error400 "icd must be list",
             (_get_model imp (_load_options_once fs s)).2, [])
        ∧ (ApiOut.error400 "icd must be list").status = 400 := by
  intro imp fs p s m v h hicd htr hnl
  rcases hE : _get_model imp (_load_options_once fs s) with ⟨r, s2⟩
  rw [hE] at h
  simp only at h
  subst h
  refine ⟨?_, rfl⟩
  simp only [api_predict]
  rw [hE]
  have hfield : icdsInOf p.icd = v := by
    rw [hicd]
    simp [icdsInOf, htr]
  rw [hfield]
  cases v with
  | arr l => simp [JVal.isList] at hnl
  | null => rfl
  | bool b => rfl
  | num q => rfl
  | str t => rfl
  | obj b => rfl

/-- Claim C7 (amended) witness: a payload with `icd` a non-empty string
gets the 400 response and an empty call trace. -/
theorem icd_nonlist_truthy_400_witness :
    (_get_model (.ok mRuleOnly) (_load_options_once .neither initialState)).1 = .ok mRuleOnly
    ∧ pStrIcd.icd = some (JVal.str "I10")
    ∧ (JVal.str "I10").truthy = true
    ∧ (JVal.str "I10").isList = false
    ∧ api_predict (.ok mRuleOnly) .neither pStrIcd initialState
        = (.error400 "icd must be list",
           (_get_model (.ok mRuleOnly) (_load_options_once .neither initialState)).2, []) :=
  ⟨rfl, rfl, rfl, rfl,
   (icd_nonlist_truthy_400 (.ok mRuleOnly) .neither pStrIcd initialState mRuleOnly
     (JVal.str "I10") rfl rfl rfl rfl).1⟩

/-- Claim C8 counterexample: the fallback catalog (loaded when no
spreadsheet exists) breaks both stated orders — its ICD list
`["I10", "E11", "J18", "K35", "N39"]` is not sorted lexicographically
and its age-group list puts the length-3 string `"65+"` last instead of
first in (length, lexicographic) order. -/
theorem default_catalog_not_sorted :
    (_load_options_once .neither initialState).ICD_LIST
        = ["I10", "E11", "J18", "K35", "N39"]
    ∧ ¬ List.Sorted pyLe (_load_options_once .neither initialState).ICD_LIST
    ∧ ¬ List.Sorted lenLex (_load_options_once .neither initialState).YASGRUP_LIST :=
  ⟨by decide, by decide, by decide⟩

/-- Claim C8 (amended): every catalog loaded from a spreadsheet (either
source) consists of three duplicate-free sequences, the age-group and
department lists sorted ascending by (length, then lexicographic) and
the ICD list sorted lexicographically; the fixed default catalog is
duplicate-free but hardcoded in display order rather than those sort
orders. -/
theorem catalog_sorted_when_loaded_from_files :
    ∀ s : ServerState, s._OPTIONS_READY = false →
      (∀ df : ExcelDF,
        List.Sorted lenLex (_load_options_once (.excel df) s).YASGRUP_LIST
        ∧ (_load_options_once (.excel df) s).YASGRUP_LIST.Nodup
        ∧ List.Sorted lenLex (_load_options_once (.excel df) s).BOLUM_LIST
        ∧ (_load_options_once (.excel df) s).BOLUM_LIST.Nodup
        ∧ List.Sorted pyLe (_load_options_once (.excel df) s).ICD_LIST
        ∧ (_load_options_once (.excel df) s).ICD_LIST.Nodup)
      ∧ (∀ df : PredDF,
        List.Sorted lenLex (_load_options_once (.predLos df) s).YASGRUP_LIST
        ∧ (_load_options_once (.predLos df) s).YASGRUP_LIST.Nodup
        ∧ List.Sorted lenLex (_load_options_once (.predLos df) s).BOLUM_LIST
        ∧ (_load_options_once (.predLos df) s).BOLUM_LIST.Nodup
        ∧ List.Sorted pyLe (_load_options_once (.predLos df) s).ICD_LIST
        ∧ (_load_options_once (.predLos df) s).ICD_LIST.Nodup)
      ∧ ((_load_options_once .neither s).YASGRUP_LIST.Nodup
        ∧ (_load_options_once .neither s).BOLUM_LIST.Nodup
        ∧ (_load_options_once .neither s).ICD_LIST.Nodup)
      ∧ ((_load_options_once .failure s).YASGRUP_LIST.Nodup
        ∧ (_load_options_once .failure s).BOLUM_LIST.Nodup
        ∧ (_load_options_once .failure s).ICD_LIST.Nodup) := by
  intro s h
  have hni : ¬ (s._OPTIONS_READY = true) := by
    rw [h]
    exact Bool.false_ne_true
  refine ⟨?_, ?_, ?_, ?_⟩
  · intro df
    simp only [_load_options_once, if_neg hni, _safe_unique]
    refine ⟨sorted_pySortedSetByLenLex _, nodup_pySortedSetByLenLex _,
      sorted_pySortedSetByLenLex _, nodup_pySortedSetByLenLex _, ?_, ?_⟩
    · by_cases hc : df.hasIcdKodu = true
      · rw [if_pos hc]
        exact sorted_pySortedSet _
      · rw [if_neg hc]
        exact List.sorted_nil
    · by_cases hc : df.hasIcdKodu = true
      · rw [if_pos hc]
        exact nodup_pySortedSet _
      · rw [if_neg hc]
        exact List.nodup_nil
  · intro df
    simp only [_load_options_once, if_neg hni, _safe_unique]
    exact ⟨sorted_pySortedSetByLenLex _, nodup_pySortedSetByLenLex _,
      sorted_pySortedSetByLenLex _, nodup_pySortedSetByLenLex _,
      sorted_pySortedSet _, nodup_pySortedSet _⟩
  · simp only [_load_options_once, if_neg hni]
    exact ⟨by decide, by decide, by decide⟩
  · simp only [_load_options_once, if_neg hni]
    exact ⟨by decide, by decide, by decide⟩

/-- Claim C8 (amended) witness: loading a concrete primary spreadsheet
yields a lexicographically sorted ICD list. -/
theorem catalog_sorted_witness :
    initialState._OPTIONS_READY = false
    ∧ List.Sorted pyLe (_load_options_once (.excel dfSample) initialState).ICD_LIST :=
  ⟨rfl, ((catalog_sorted_when_loaded_from_files initialState rfl).1 dfSample).2.2.2.2.1⟩

/-- Claim C1: in every successful prediction response of both
endpoints, the final estimate is the rule estimate whenever the ensemble
estimate is null/NaN/infinite (the blend weight is ignored), and when
the ensemble estimate is a finite value `x` it is exactly
`(1-w)*rule + w*x` with `w` the model's blend weight. -/
theorem blend_invariant :
    (∀ (imp : Except String Model) (fs : FsState) (p : Payload) (s : ServerState)
        (m : Model) (resp : PredictResponse) (s2 : ServerState) (tr : List MCall),
      (_get_model imp (_load_options_once fs s)).1 = .ok m →
      api_predict imp fs p s = (.ok resp, s2, tr) →
      (∀ x : ℚ, resp.pred_xgb_ens = some (.val x) →
        resp.pred_final = (1 - m.blendVal) * resp.pred_rule + m.blendVal * x)
      ∧ ((∀ x : ℚ, resp.pred_xgb_ens ≠ some (.val x)) →
        resp.pred_final = resp.pred_rule))
    ∧ (∀ (imp : Except String Model) (fs : FsState) (ygIn bIn : String)
        (il : Option (List String)) (ifr : Option String) (s : ServerState)
        (m : Model) (yg b : String) (icds : List String) (pr : ℚ)
        (pe : Option PyFloat) (pf : ℚ) (pfr : Int) (s2 : ServerState) (tr : List MCall),
      (_get_model imp (_load_options_once fs s)).1 = .ok m →
      tahmin_post imp fs ygIn bIn il ifr s = (.okPage yg b icds pr pe pf pfr, s2, tr) →
      (∀ x : ℚ, pe = some (.val x) →
        pf = (1 - m.blendVal) * pr + m.blendVal * x)
      ∧ ((∀ x : ℚ, pe ≠ some (.val x)) → pf = pr)) := by
  constructor
  · intro imp fs p s m resp s2 tr h heq
    rcases hE : _get_model imp (_load_options_once fs s) with ⟨r, s1⟩
    rw [hE] at h
    simp only at h
    subst h
    have hs1 : s1._model = some m := get_model_ok_model hE
    have hw := get_blend_w_of_cached hs1 imp
    simp only [api_predict] at heq
    rw [hE] at heq
    rcases hfield : icdsInOf p.icd with _ | bb | qq | st | icds_in | ob <;>
      rw [hfield] at heq <;> simp only at heq
    case null => exact absurd heq (by simp)
    case bool => exact absurd heq (by simp)
    case num => exact absurd heq (by simp)
    case str => exact absurd heq (by simp)
    case obj => exact absurd heq (by simp)
    case arr =>
      split at heq
      · simp only [Prod.mk.injEq, ApiOut.ok.injEq] at heq
        obtain ⟨h1, h2, h3⟩ := heq
        subst h1
        constructor
        · intro x2 hx
          simp only [Option.some.injEq, PyFloat.val.injEq] at hx
          subst hx
          rw [hw]
        · intro hn
          exact absurd rfl (hn _)
      · rename_i hne
        simp only [Prod.mk.injEq, ApiOut.ok.injEq] at heq
        obtain ⟨h1, h2, h3⟩ := heq
        subst h1
        constructor
        · intro x2 hx
          exact absurd hx (hne x2)
        · intro _
          rfl
  · intro imp fs ygIn bIn il ifr s m yg b icds pr pe pf pfr s2 tr h heq
    rcases hE : _get_model imp (_load_options_once fs s) with ⟨r, s1⟩
    rw [hE] at h
    simp only at h
    subst h
    have hs1 : s1._model = some m := get_model_ok_model hE
    have hw := get_blend_w_of_cached hs1 imp
    simp only [tahmin_post] at heq
    rw [hE] at heq
    simp only at heq
    split at heq
    · simp only [Prod.mk.injEq, TahminOut.okPage.injEq] at heq
      obtain ⟨⟨e1, e2, e3, e4, e5, e6, e7⟩, h2, h3⟩ := heq
      subst e4
      subst e5
      subst e6
      constructor
      · intro x2 hx
        simp only [Option.some.injEq, PyFloat.val.injEq] at hx
        subst hx
        rw [hw]
      · intro hn
        exact absurd rfl (hn _)
    · rename_i hne
      simp only [Prod.mk.injEq, TahminOut.okPage.injEq] at heq
      obtain ⟨⟨e1, e2, e3, e4, e5, e6, e7⟩, h2, h3⟩ := heq
      subst e4
      subst e5
      subst e6
      constructor
      · intro x2 hx
        exact absurd hx (hne x2)
      · intro _
        rfl

/-- The response `api_predict` produces for `pListIcd` under `mEns`. -/
def respEns : PredictResponse :=
  { yasgrup := "35-50", bolum := "Dahiliye", icd := ["i10", " e11 "],
    pred_rule := 3, pred_xgb_ens := some (.val 2),
    pred_final := (1 - (1/4 : ℚ)) * 3 + (1/4) * 2, pred_final_rounded := 3 }

/-- The globals after that request. -/
def stateEns : ServerState :=
  { _model := some mEns, _model_err := none, _OPTIONS_READY := true,
    YASGRUP_LIST := DEFAULT_YASGRUP, BOLUM_LIST := DEFAULT_BOLUM, ICD_LIST := DEFAULT_ICD }

/-- The model calls of that request. -/
def trEns : List MCall :=
  [.cleanKey "E11||I10", .predictOne "35-50" "Dahiliye" "E11||I10",
   .xgbEns "35-50" "Dahiliye" "E11||I10" ["i10", " e11 "], .blendRead,
   .roundHalf ((1 - (1/4 : ℚ)) * 3 + (1/4) * 2)]

/-- Claim C1 witness: with a finite ensemble value 2 and weight 1/4 the
final estimate is exactly the blend. -/
theorem blend_invariant_witness :
    (_get_model (.ok mEns) (_load_options_once .neither initialState)).1 = .ok mEns
    ∧ api_predict (.ok mEns) .neither pListIcd initialState = (.ok respEns, stateEns, trEns)
    ∧ respEns.pred_xgb_ens = some (.val 2)
    ∧ respEns.pred_final = (1 - mEns.blendVal) * respEns.pred_rule + mEns.blendVal * 2 :=
  ⟨rfl, rfl, rfl,
   (blend_invariant.1 (.ok mEns) .neither pListIcd initialState mEns respEns stateEns trEns
     rfl rfl).1 2 rfl⟩

/-- The free-text tokens without the truthiness guard: every non-blank
trimmed-and-upper-cased fragment of the comma/semicolon-split text. -/
def icdFreeTokensPlain : Option String → List String
  | some t0 =>
    (pySplit ',' (pyReplaceSemi t0)).filterMap (fun x =>
      if pyUpper (pyStrip x) = "" then none else some (pyUpper (pyStrip x)))
  | none => []

/-- The normalised tokens the two ICD inputs contribute. -/
def icdInputTokens (ml : Option (List String)) (t : Option String) : List String :=
  icdMultiTokens ml ++ icdFreeTokensPlain t

theorem icdFreeTokens_eq_plain (t : Option String) :
    icdFreeTokens t = icdFreeTokensPlain t := by
  rcases t with _ | t0
  · rfl
  · by_cases h0 : t0 = ""
    · subst h0
      rfl
    · simp only [icdFreeTokens, icdFreeTokensPlain]
      rw [if_pos h0]

theorem icd_key_snd (ml : Option (List String)) (t : Option String) :
    (_icd_key_from_inputs ml t).2 = pySortedSet (icdInputTokens ml t) := by
  simp only [_icd_key_from_inputs, icdInputTokens]
  rw [icdFreeTokens_eq_plain]

theorem icd_key_fst (ml : Option (List String)) (t : Option String) :
    (_icd_key_from_inputs ml t).1
      = String.intercalate "||" (_icd_key_from_inputs ml t).2 := rfl

/-- Claim C2: the derived ICD list-and-key is invariant under
permutations of the multi-select input and under duplicated entries, and
is always the distinct trimmed-and-upper-cased input tokens sorted
lexicographically, joined with the two-character separator `||`. -/
theorem icd_key_canonical :
    (∀ (l1 l2 : List String) (t : Option String), l1.Perm l2 →
      _icd_key_from_inputs (some l1) t = _icd_key_from_inputs (some l2) t)
    ∧ (∀ (x : String) (l : List String) (t : Option String),
      _icd_key_from_inputs (some (x :: x :: l)) t = _icd_key_from_inputs (some (x :: l)) t)
    ∧ (∀ (ml : Option (List String)) (t : Option String),
      (_icd_key_from_inputs ml t).1
        = String.intercalate "||" (_icd_key_from_inputs ml t).2
      ∧ List.Sorted pyLe (_icd_key_from_inputs ml t).2
      ∧ (_icd_key_from_inputs ml t).2.Nodup
      ∧ (∀ a : String, a ∈ (_icd_key_from_inputs ml t).2 ↔ a ∈ icdInputTokens ml t)) := by
  have hpair : ∀ (ml1 ml2 : Option (List String)) (t : Option String),
      (∀ a, a ∈ icdInputTokens ml1 t ↔ a ∈ icdInputTokens ml2 t) →
      _icd_key_from_inputs ml1 t = _icd_key_from_inputs ml2 t := by
    intro ml1 ml2 t hmem
    have h2 : (_icd_key_from_inputs ml1 t).2 = (_icd_key_from_inputs ml2 t).2 := by
      rw [icd_key_snd, icd_key_snd]
      exact pySortedSet_eq_of_mem_iff hmem
    exact Prod.ext ((icd_key_fst ml1 t).trans
      ((congrArg (String.intercalate "||") h2).trans (icd_key_fst ml2 t).symm)) h2
  refine ⟨?_, ?_, ?_⟩
  · intro l1 l2 t hperm
    refine hpair (some l1) (some l2) t (fun a => ?_)
    simp only [icdInputTokens, icdMultiTokens, List.mem_append, List.mem_map,
      List.mem_filter, hperm.mem_iff]
  · intro x l t
    refine hpair (some (x :: x :: l)) (some (x :: l)) t (fun a => ?_)
    simp only [icdInputTokens, icdMultiTokens, List.mem_append, List.mem_map,
      List.mem_filter, List.mem_cons]
    constructor
    · rintro (⟨x2, ⟨hx2, hp⟩, hfx⟩ | hB)
      · rcases hx2 with rfl | rfl | hmem
        · exact Or.inl ⟨x2, ⟨Or.inl rfl, hp⟩, hfx⟩
        · exact Or.inl ⟨x2, ⟨Or.inl rfl, hp⟩, hfx⟩
        · exact Or.inl ⟨x2, ⟨Or.inr hmem, hp⟩, hfx⟩
      · exact Or.inr hB
    · rintro (⟨x2, ⟨hx2, hp⟩, hfx⟩ | hB)
      · rcases hx2 with rfl | hmem
        · exact Or.inl ⟨x2, ⟨Or.inl rfl, hp⟩, hfx⟩
        · exact Or.inl ⟨x2, ⟨Or.inr (Or.inr hmem), hp⟩, hfx⟩
      · exact Or.inr hB
  · intro ml t
    refine ⟨icd_key_fst ml t, ?_, ?_, ?_⟩
    · rw [icd_key_snd]
      exact sorted_pySortedSet _
    · rw [icd_key_snd]
      exact nodup_pySortedSet _
    · intro a
      rw [icd_key_snd, mem_pySortedSet]

/-- Claim C2 witness: the key is insensitive to the order of the
multi-select entries, and normalises `["i10", " e11 "]` to the sorted
distinct key `E11||I10`. -/
theorem icd_key_canonical_witness :
    (["i10", " e11 "].Perm [" e11 ", "i10"])
    ∧ _icd_key_from_inputs (some ["i10", " e11 "]) none
        = _icd_key_from_inputs (some [" e11 ", "i10"]) none
    ∧ _icd_key_from_inputs (some ["i10", " e11 "]) none = ("E11||I10", ["E11", "I10"]) :=
  ⟨by decide,
   icd_key_canonical.1 ["i10", " e11 "] [" e11 ", "i10"] none (by decide),
   by decide⟩

end Server
